import Mathlib

/-!
# Verification of the supertutors math-tutoring core

A shallow embedding, in Lean 4, of the algorithmic core of the
`supertutors` backend (`backend/app/services/`): the math-expression
detector, the SymPy-facade and answer checking/validation services, and
the Socratic-guard response validator and orchestrator.

Python regular-expression matching is embedded by a small backtracking
matcher over `List Char` that supports exactly the constructs used by the
source patterns (character classes, greedy and lazy repetition of a
class, alternation, word boundaries, lookahead, the `(?:^|(?<=\s))`
lookbehind idiom and anchors), with Python's leftmost, left-biased,
greedy/lazy backtracking order.

SymPy itself is an external dependency of the repository; the fragment of
its behaviour those services exercise (parsing of arithmetic expressions
over one variable, canonical polynomial simplification, equation solving
for polynomials of degree at most two with rational roots) is modelled
explicitly; each modelling gap is recorded in a doc comment on the
definition concerned.

Floating-point values (`float`, `sympy.Float`) are modelled as exact
rationals; every numeric literal appearing in the claims is decimal, so
its value is representable exactly.
-/

namespace SuperTutors

/-! ## String utilities (Python `str` operations) -/

/-- Python `\s` (ASCII whitespace as used by `str.strip` and `re`). -/
def pySpace (c : Char) : Bool :=
  c = ' ' || c = '\t' || c = '\n' || c = '\r' || c = '\x0b' || c = '\x0c'

/-- Python `str.lower()` on ASCII text. -/
def lowerStr (s : String) : String :=
  ⟨s.toList.map Char.toLower⟩

/-- Python `str.strip()` on a character list. -/
def stripChars (l : List Char) : List Char :=
  ((l.dropWhile pySpace).reverse.dropWhile pySpace).reverse

/-- Python `str.strip()`. -/
def stripStr (s : String) : String :=
  ⟨stripChars s.toList⟩

/-- Python `needle in hay` substring containment. -/
def hasSubstr (needle : List Char) : List Char → Bool
  | [] => needle.isEmpty
  | hay@(_ :: t) => needle.isPrefixOf hay || hasSubstr needle t

/-- Python `s.split(sep)` for a single-character separator. -/
def splitOnChar (sep : Char) : List Char → List (List Char)
  | [] => [[]]
  | c :: rest =>
    let r := splitOnChar sep rest
    if c = sep then [] :: r
    else
      match r with
      | h :: t => (c :: h) :: t
      | [] => [[c]]

/-- Python `s.split(sep, 1)` when `sep` occurs: the part before the first
occurrence and the part after it (`none` when `sep` does not occur). -/
def splitFirst (sep : Char) : List Char → Option (List Char × List Char)
  | [] => none
  | c :: rest =>
    if c = sep then some ([], rest)
    else (splitFirst sep rest).map (fun p => (c :: p.1, p.2))

/-- Number of positions of `hay` at which `needle` occurs (occurrences may
overlap).  Used only by the spec-worded variant of the detector's
confidence adjustment. -/
def occurrenceCount (needle : List Char) : List Char → ℕ
  | [] => if needle.isEmpty then 1 else 0
  | hay@(_ :: t) =>
    (if needle.isPrefixOf hay then 1 else 0) + occurrenceCount needle t

/-! ## A Python-`re` subset: syntax -/

/-- The regex constructs used by the source's patterns.  Repetition
operators only ever apply to a single character class in the source, so
`many`/`manyLazy`/`opt` take a class, not a subexpression. -/
inductive Regex where
  /-- empty pattern -/
  | eps : Regex
  /-- one character of a class -/
  | ch (p : Char → Bool) : Regex
  /-- concatenation -/
  | seq (a b : Regex) : Regex
  /-- alternation, left-biased like Python's `|` -/
  | alt (a b : Regex) : Regex
  /-- greedy `*` over a character class -/
  | many (p : Char → Bool) : Regex
  /-- lazy `*?` over a character class -/
  | manyLazy (p : Char → Bool) : Regex
  /-- greedy `?` over a character class -/
  | opt (p : Char → Bool) : Regex
  /-- word boundary `\b` -/
  | wb : Regex
  /-- end of input `$`.  (Python's `$` also matches just before one
  trailing newline; every subject these patterns are applied to is a
  single line or stripped, so the distinction is not exercised.) -/
  | eos : Regex
  /-- `(?:^|(?<=[class]))`: start of input, or lookbehind for one class character -/
  | startOrPrev (p : Char → Bool) : Regex
  /-- lookahead `(?=r)` -/
  | ahead (r : Regex) : Regex

/-- Weight of a regex, for termination of the matcher. -/
def Regex.w : Regex → ℕ
  | .seq a b => a.w + b.w + 1
  | .alt a b => a.w + b.w + 1
  | .ahead r => r.w + 1
  | _ => 1

/-- Total weight of a continuation stack of regexes. -/
def stackW : List Regex → ℕ
  | [] => 0
  | r :: rest => r.w + stackW rest

theorem stackW_cons (r : Regex) (k : List Regex) :
    stackW (r :: k) = r.w + stackW k := rfl

/-- Python `\w` (ASCII fragment: the texts concerned are ASCII). -/
def isWordChar (c : Char) : Bool :=
  c.isAlphanum || c = '_'

/-- Python's `\b`: the previous character (if any) and the next character
(if any) disagree on word-char-ness. -/
def atBoundary (prev : Option Char) (s : List Char) : Bool :=
  (match prev with | some c => isWordChar c | none => false)
    != (match s with | c :: _ => isWordChar c | [] => false)

/-! ## A Python-`re` subset: matching

`reMatch k prev s` matches the continuation stack `k` against `s`, where
`prev` is the character just before `s` in the full subject (needed for
`\b` and lookbehind).  It returns the remaining suffix for the FIRST
successful alternative in Python's backtracking order (alternation
left-biased, `*` greedy, `*?` lazy), so the consumed length equals the
extent of the Python match. -/

def reMatch : List Regex → Option Char → List Char → Option (List Char)
  | [], _, s => some s
  | .eps :: k, prev, s => reMatch k prev s
  | .ch p :: k, _, s =>
    match s with
    | c :: s' => if p c then reMatch k (some c) s' else none
    | [] => none
  | .seq a b :: k, prev, s => reMatch (a :: b :: k) prev s
  | .alt a b :: k, prev, s =>
    (reMatch (a :: k) prev s).orElse (fun _ => reMatch (b :: k) prev s)
  | .many p :: k, prev, s =>
    (match s with
     | c :: s' =>
       if p c then reMatch (.many p :: k) (some c) s' else none
     | [] => none).orElse (fun _ => reMatch k prev s)
  | .manyLazy p :: k, prev, s =>
    (reMatch k prev s).orElse (fun _ =>
      match s with
      | c :: s' =>
        if p c then reMatch (.manyLazy p :: k) (some c) s' else none
      | [] => none)
  | .opt p :: k, prev, s =>
    (match s with
     | c :: s' => if p c then reMatch k (some c) s' else none
     | [] => none).orElse (fun _ => reMatch k prev s)
  | .wb :: k, prev, s => if atBoundary prev s then reMatch k prev s else none
  | .eos :: k, prev, s => if s.isEmpty then reMatch k prev s else none
  | .startOrPrev p :: k, prev, s =>
    if (match prev with | none => true | some c => p c) then reMatch k prev s
    else none
  | .ahead r :: k, prev, s =>
    if (reMatch [r] prev s).isSome then reMatch k prev s else none
termination_by k _ s => (s.length, stackW k)
decreasing_by
  all_goals simp_wf
  all_goals simp [stackW, Regex.w]
  all_goals first
    | (apply Prod.Lex.left; omega)
    | (apply Prod.Lex.right; omega)

/-- `re.search` scan: leftmost match, reported as `(start, end)` offsets
relative to the original start position `pos`. -/
def searchFrom (r : Regex) : Option Char → List Char → ℕ → Option (ℕ × ℕ)
  | prev, s, pos =>
    match reMatch [r] prev s with
    | some rest => some (pos, pos + (s.length - rest.length))
    | none =>
      match s with
      | [] => none
      | c :: s' => searchFrom r (some c) s' (pos + 1)

/-- Python `re.search(r, s)` span. -/
def reSearch (r : Regex) (s : List Char) : Option (ℕ × ℕ) :=
  searchFrom r none s 0

/-- Whether `re.search(r, s)` matches at all. -/
def reTest (r : Regex) (s : List Char) : Bool :=
  (reSearch r s).isSome

/-- Python `re.match(r, s)` (anchored at position 0): length of the match. -/
def reMatchLen (r : Regex) (s : List Char) : Option ℕ :=
  (reMatch [r] none s).map (fun rest => s.length - rest.length)

/-- `advance prev s n` drops `n` characters of `s`, tracking the character
preceding the new position. -/
def advance : Option Char → List Char → ℕ → Option Char × List Char
  | prev, s, 0 => (prev, s)
  | prev, [], _ + 1 => (prev, [])
  | _, c :: s', n + 1 => advance (some c) s' n

theorem advance_snd_length :
    ∀ (prev : Option Char) (s : List Char) (n : ℕ),
      ((advance prev s n).2).length = s.length - n := by
  intro prev s n
  induction n generalizing prev s with
  | zero => simp [advance]
  | succ m ih =>
    cases s with
    | nil => simp [advance]
    | cons c s' => simpa [advance] using ih (some c) s'

/-- Python `re.finditer`: successive non-overlapping leftmost matches;
after a non-empty match scanning resumes at its end, after an empty match
at the next character. -/
def finditerGo (r : Regex) : Option Char → List Char → ℕ → List (ℕ × ℕ)
  | prev, s, pos =>
    match reMatch [r] prev s with
    | some rest =>
      let L := s.length - rest.length
      if h : L = 0 then
        (pos, pos) ::
          (match s with
           | [] => []
           | c :: s' => finditerGo r (some c) s' (pos + 1))
      else
        let pr := advance prev s L
        (pos, pos + L) :: finditerGo r pr.1 pr.2 (pos + L)
    | none =>
      match s with
      | [] => []
      | c :: s' => finditerGo r (some c) s' (pos + 1)
termination_by prev s pos => s.length
decreasing_by
  · simp
  · have hlen := advance_snd_length prev s (s.length - rest.length)
    simp only [hlen]
    omega
  · simp

/-- Python `re.finditer(r, s)` spans. -/
def reFinditer (r : Regex) (s : List Char) : List (ℕ × ℕ) :=
  finditerGo r none s 0

/-! ## Regex construction helpers -/

/-- Literal character sequence. -/
def strLit (s : String) : Regex :=
  s.toList.foldr (fun c acc => Regex.seq (Regex.ch (fun x => x = c)) acc)
    Regex.eps

/-- Greedy `+` over a character class. -/
def plus1 (p : Char → Bool) : Regex :=
  Regex.seq (Regex.ch p) (Regex.many p)

/-- Lazy `+?` over a character class. -/
def plusLazy (p : Char → Bool) : Regex :=
  Regex.seq (Regex.ch p) (Regex.manyLazy p)

/-- Sequence of a list of regexes. -/
def seqList (l : List Regex) : Regex :=
  l.foldr Regex.seq Regex.eps

/-- Left-biased alternation of a non-empty list (Python `a|b|c`). -/
def altList : List Regex → Regex
  | [] => Regex.eps
  | [r] => r
  | r :: rest => Regex.alt r (altList rest)

def isDigitCh (c : Char) : Bool := c.isDigit

def isLowerAlpha (c : Char) : Bool := 'a' ≤ c ∧ c ≤ 'z'

def isAnyAlpha (c : Char) : Bool := ('a' ≤ c ∧ c ≤ 'z') || ('A' ≤ c ∧ c ≤ 'Z')

/-! ## SocraticGuard (`app/services/socratic_guard.py`)

The validation patterns, rule-based validation, two-stage validation and
the generate→validate→retry→fallback orchestrator.  The text-generation
capability (OpenAI/Ollama) is modelled as an oracle: per attempt it
either produces a text or fails (raises); the second-opinion judge is
likewise an oracle producing either a parsed verdict or a failure. -/

/-- `DIRECT_ANSWER_PATTERNS`, each with its Python source text. -/
def DIRECT_ANSWER_PATTERNS : List (String × Regex) := [
  ("\\bthe answer is\\s+[^\\s]",
    seqList [Regex.wb, strLit ("the answer is"), plus1 pySpace,
             Regex.ch (fun c => !pySpace c)]),
  ("\\bthe solution is\\s+\\d+",
    seqList [Regex.wb, strLit ("the solution is"), plus1 pySpace,
             plus1 isDigitCh]),
  ("\\bthe result is\\s+\\d+",
    seqList [Regex.wb, strLit ("the result is"), plus1 pySpace,
             plus1 isDigitCh]),
  ("\\bstep\\s+\\d+:",
    seqList [Regex.wb, strLit ("step"), plus1 pySpace, plus1 isDigitCh,
             strLit (":")]),
  ("\\bfirst,\\s+\\w+\\.\\s+then,",
    seqList [Regex.wb, strLit ("first,"), plus1 pySpace, plus1 isWordChar,
             strLit ("."), plus1 pySpace, strLit ("then,")]),
  ("\\buse\\s+the\\s+formula",
    seqList [Regex.wb, strLit ("use"), plus1 pySpace, strLit ("the"),
             plus1 pySpace, strLit ("formula")]),
  ("\\bapply\\s+the\\s+formula",
    seqList [Regex.wb, strLit ("apply"), plus1 pySpace, strLit ("the"),
             plus1 pySpace, strLit ("formula")]),
  ("\\bsubstitute\\s+\\d+",
    seqList [Regex.wb, strLit ("substitute"), plus1 pySpace, plus1 isDigitCh]),
  ("\\bplug\\s+in\\s+\\d+",
    seqList [Regex.wb, strLit ("plug"), plus1 pySpace, strLit ("in"),
             plus1 pySpace, plus1 isDigitCh])]

/-- `GIVING_ANSWER_PATTERNS` (checked only without acknowledgment). -/
def GIVING_ANSWER_PATTERNS : List (String × Regex) := [
  ("\\bx\\s*=\\s*\\d+",
    seqList [Regex.wb, Regex.ch (fun c => c = 'x'), Regex.many pySpace,
             Regex.ch (fun c => c = '='), Regex.many pySpace, plus1 isDigitCh]),
  ("\\by\\s*=\\s*\\d+",
    seqList [Regex.wb, Regex.ch (fun c => c = 'y'), Regex.many pySpace,
             Regex.ch (fun c => c = '='), Regex.many pySpace, plus1 isDigitCh]),
  ("\\bz\\s*=\\s*\\d+",
    seqList [Regex.wb, Regex.ch (fun c => c = 'z'), Regex.many pySpace,
             Regex.ch (fun c => c = '='), Regex.many pySpace, plus1 isDigitCh]),
  ("\\bequals\\s*\\d+",
    seqList [Regex.wb, strLit ("equals"), Regex.many pySpace, plus1 isDigitCh]),
  ("\\b=\\s*\\d+\\b",
    seqList [Regex.wb, Regex.ch (fun c => c = '='), Regex.many pySpace,
             plus1 isDigitCh, Regex.wb])]

/-- `ACKNOWLEDGMENT_PHRASES`. -/
def ACKNOWLEDGMENT_PHRASES : List (String × Regex) := [
  ("\\bcorrect\\b", seqList [Regex.wb, strLit ("correct"), Regex.wb]),
  ("\\bexactly\\b", seqList [Regex.wb, strLit ("exactly"), Regex.wb]),
  ("\\bperfect\\b", seqList [Regex.wb, strLit ("perfect"), Regex.wb]),
  ("\\bexcellent\\b", seqList [Regex.wb, strLit ("excellent"), Regex.wb]),
  ("\\bgreat job\\b", seqList [Regex.wb, strLit ("great job"), Regex.wb]),
  ("\\bwell done\\b", seqList [Regex.wb, strLit ("well done"), Regex.wb]),
  ("\\byou\\'?ve got it\\b",
    seqList [Regex.wb, strLit ("you"), Regex.opt (fun c => c = Char.ofNat 39),
             strLit ("ve got it"), Regex.wb]),
  ("\\byou\\'?ve solved it\\b",
    seqList [Regex.wb, strLit ("you"), Regex.opt (fun c => c = Char.ofNat 39),
             strLit ("ve solved it"), Regex.wb]),
  ("\\bthat\\'?s right\\b",
    seqList [Regex.wb, strLit ("that"), Regex.opt (fun c => c = Char.ofNat 39),
             strLit ("s right"), Regex.wb]),
  ("\\byes\\b", seqList [Regex.wb, strLit ("yes"), Regex.wb])]

/-- `DIRECT_ANSWER_KEYWORDS`. -/
def DIRECT_ANSWER_KEYWORDS : List String :=
  ["answer", "solution", "result", "equals", "formula",
   "calculate", "substitute", "plug in", "step 1", "step 2"]

/-- `FALLBACK_QUESTIONS`. -/
def FALLBACK_QUESTIONS : List String :=
  ["What have you tried so far to solve this problem?",
   "What do you think might be the first step?",
   "Can you tell me what you understand about this problem?",
   "What strategies do you know that might help here?",
   "What part of this problem seems most challenging to you?"]

/-- `SocraticGuard._rule_based_validation`: returns
`(is_valid, reason, confidence)`. -/
def rule_based_validation (response : String) : Bool × String × ℚ :=
  let response_lower := (lowerStr response).toList
  let has_acknowledgment :=
    ACKNOWLEDGMENT_PHRASES.any (fun pr => reTest pr.2 response_lower)
  match DIRECT_ANSWER_PATTERNS.find? (fun pr => reTest pr.2 response_lower) with
  | some pr => (false, "Matched pattern: " ++ pr.1, 9/10)
  | none =>
    match (if has_acknowledgment then none
           else GIVING_ANSWER_PATTERNS.find?
                  (fun pr => reTest pr.2 response_lower)) with
    | some pr => (false, "Tutor is giving answer: " ++ pr.1, 9/10)
    | none =>
      let keyword_count :=
        DIRECT_ANSWER_KEYWORDS.countP
          (fun kw => hasSubstr kw.toList response_lower)
      if has_acknowledgment then
        if keyword_count ≥ 5 then
          (false, "Too many direct answer keywords even with acknowledgment ("
                    ++ toString keyword_count ++ ")", 7/10)
        else (true, "Acknowledgment response with acceptable keywords", 8/10)
      else
        if keyword_count ≥ 3 then
          (false, "Too many direct answer keywords ("
                    ++ toString keyword_count ++ ")", 8/10)
        else if keyword_count ≥ 2 then
          (true, "Some keywords but likely acceptable ("
                   ++ toString keyword_count ++ ")", 1/2)
        else (true, "No obvious direct answer patterns detected", 7/10)

/-- Outcome of one `_llm_validation` call: either the parsed verdict
`(is_valid, reason, confidence)` — which already covers the
malformed-JSON inconclusive accept `(True, _, 0.3)` — or a raised
exception (provider/timeout error). -/
inductive LLMOutcome where
  | ok (is_valid : Bool) (reason : String) (confidence : ℚ)
  | fail
deriving DecidableEq

/-- Result of `SocraticGuard.validate_response`, instrumented with
whether the second-opinion judge was actually invoked. -/
structure ValidationOutcome where
  is_valid : Bool
  reason : String
  confidence : ℚ
  llm_called : Bool
deriving DecidableEq

/-- `SocraticGuard.validate_response`, with the judge call modelled by
the `llm` oracle. -/
def validate_response (llm : LLMOutcome) (_student_message tutor_response : String)
    (use_llm : Bool := true) : ValidationOutcome :=
  let r := rule_based_validation tutor_response
  if r.1 = false ∧ r.2.2 > 8/10 then
    ⟨false, r.2.1, r.2.2, false⟩
  else if use_llm then
    match llm with
    | .fail => ⟨r.1, r.2.1, r.2.2, true⟩
    | .ok lv lr lc =>
      if lv = false ∧ lc > 7/10 then ⟨false, lr, lc, true⟩
      else if r.1 = false ∧ lv = false then
        ⟨false, "Both validators rejected: " ++ lr, (r.2.2 + lc) / 2, true⟩
      else if lv = true ∧ lc > 7/10 then ⟨true, lr, lc, true⟩
      else ⟨r.1, r.2.1, r.2.2, true⟩
  else ⟨r.1, r.2.1, r.2.2, false⟩

/-- C1: for every student message and candidate tutor response whose
lowercased text matches one of the direct-answer regular expressions,
`validate_response` returns `is_valid = false` with confidence `0.9`,
regardless of acknowledgment phrasing (the response is universally
quantified) and for every judge behaviour and `use_llm` flag, and the
second-opinion judge is not invoked: the rule-stage rejection at
confidence `0.9 > 0.8` short-circuits stage 2. -/
theorem direct_answer_pattern_rejected_at_rule_stage
    (llm : LLMOutcome) (student tutor : String) (use_llm : Bool)
    (h : ∃ p ∈ DIRECT_ANSWER_PATTERNS, reTest p.2 (lowerStr tutor).toList = true) :
    (validate_response llm student tutor use_llm).is_valid = false ∧
    (validate_response llm student tutor use_llm).confidence = 9/10 ∧
    (validate_response llm student tutor use_llm).llm_called = false := by
  obtain ⟨pr, hfind⟩ := Option.isSome_iff_exists.mp (List.find?_isSome.mpr h)
  have hrule : rule_based_validation tutor =
      (false, "Matched pattern: " ++ pr.1, 9/10) := by
    simp only [rule_based_validation]
    rw [hfind]
  unfold validate_response
  rw [hrule]
  rw [if_pos ⟨rfl, by norm_num⟩]
  exact ⟨rfl, rfl, rfl⟩

unseal reMatch in
/-- Witness for C1: a response containing `"the answer is 5"` together
with acknowledgment phrasing is rejected at confidence `0.9` without a
judge call, even when the judge would have accepted it. -/
theorem direct_answer_pattern_rejected_at_rule_stage_witness :
    (∃ p ∈ DIRECT_ANSWER_PATTERNS,
        reTest p.2 (lowerStr ("Great thinking! The answer is 5.")).toList = true) ∧
    (validate_response (LLMOutcome.ok true ("looks fine") (95/100))
        ("what is x?") ("Great thinking! The answer is 5.") true).is_valid = false ∧
    (validate_response (LLMOutcome.ok true ("looks fine") (95/100))
        ("what is x?") ("Great thinking! The answer is 5.") true).confidence = 9/10 ∧
    (validate_response (LLMOutcome.ok true ("looks fine") (95/100))
        ("what is x?") ("Great thinking! The answer is 5.") true).llm_called = false := by
  have hmem : (∃ p ∈ DIRECT_ANSWER_PATTERNS,
      reTest p.2 (lowerStr ("Great thinking! The answer is 5.")).toList = true) := by
    exact List.any_eq_true.mp (by decide)
  exact ⟨hmem, direct_answer_pattern_rejected_at_rule_stage _ _ _ _ hmem⟩

/-! ### The orchestrator (`generate_socratic_response`,
`generate_validated_response`) -/

/-- One call to the text-generation capability: either a generated text
or a raised error (timeout, network, rate limit). -/
inductive GenOutcome where
  | ok (text : String)
  | fail
deriving DecidableEq

/-- `SocraticGuard.generate_socratic_response`.  The generation
capability is the oracle `gen` (indexed by attempt number); on failure
the `except` branch returns a random fallback question, with the random
draw modelled by the caller-supplied index `pickGen attempt`. -/
def generate_socratic_response (gen : ℕ → GenOutcome) (pickGen : ℕ → ℕ)
    (attempt : ℕ) : String :=
  match gen attempt with
  | .ok t => stripStr t
  | .fail =>
    FALLBACK_QUESTIONS.getD (pickGen attempt % FALLBACK_QUESTIONS.length) ""

/-- The dictionary returned by `generate_validated_response`. -/
structure GuardResult where
  response : String
  validation_passed : Bool
  attempts : ℕ
  confidence : ℚ
  reason : String
  is_final_answer : Bool
deriving DecidableEq

/-- A `GuardResult` instrumented with how many generation-capability
calls and how many validation calls the turn performed. -/
structure TurnOutcome where
  result : GuardResult
  genCalls : ℕ
  valCalls : ℕ
deriving DecidableEq

/-- The retry loop of `generate_validated_response`:
`for attempt in range(1, max_retries + 1)`, with `remaining` iterations
left.  Falling off the loop returns the fallback dictionary, with the
`random.choice` draw modelled by `pickFall`. -/
def validationLoop (max_retries : ℕ) (gen : ℕ → GenOutcome)
    (llm : ℕ → LLMOutcome) (pickGen : ℕ → ℕ) (pickFall : ℕ)
    (student : String) (is_final : Bool) : ℕ → ℕ → TurnOutcome
  | 0, _ =>
    ⟨⟨FALLBACK_QUESTIONS.getD (pickFall % FALLBACK_QUESTIONS.length) "",
      false, max_retries, 1, "Used fallback after max retries", is_final⟩, 0, 0⟩
  | remaining + 1, attempt =>
    let response := generate_socratic_response gen pickGen attempt
    let v := validate_response (llm attempt) student response
    if v.is_valid then
      ⟨⟨response, true, attempt, v.confidence, v.reason, is_final⟩, 1, 1⟩
    else
      let o := validationLoop max_retries gen llm pickGen pickFall student
                 is_final remaining (attempt + 1)
      ⟨o.result, o.genCalls + 1, o.valCalls + 1⟩

/-- `SocraticGuard.generate_validated_response` (`max_retries` defaults
to 3 in the source). -/
def generate_validated_response (max_retries : ℕ) (gen : ℕ → GenOutcome)
    (llm : ℕ → LLMOutcome) (pickGen : ℕ → ℕ) (pickFall : ℕ)
    (student : String) (is_correct_answer : Option Bool) : TurnOutcome :=
  match is_correct_answer with
  | some _ =>
    ⟨⟨generate_socratic_response gen pickGen 1, true, 1, 1,
      "Validation skipped for acknowledgment response", true⟩, 1, 0⟩
  | none =>
    validationLoop max_retries gen llm pickGen pickFall student false
      max_retries 1

unseal reMatch Rat.add Rat.sub Rat.mul Rat.inv in
/-- Counterexample to C2 as stated: with a generation capability that
fails on every attempt (so in particular during attempt 1) and a judge
that rejects everything at confidence `0.9`, the orchestrator does NOT
immediately return after the failed attempt: the caught failure is
replaced by a fallback question which is then validated, and the loop
performs all 3 generation calls and all 3 validation calls before
falling back — not 1 generation call and 0 validation calls. -/
theorem generation_failure_does_not_short_circuit :
    ((fun _ => GenOutcome.fail) 1 = GenOutcome.fail) ∧
    (generate_validated_response 3 (fun _ => GenOutcome.fail)
        (fun _ => LLMOutcome.ok false ("states the final answer") (9/10))
        (fun _ => 0) 0 ("help me solve 2x + 3 = 5") none).genCalls = 3 ∧
    (generate_validated_response 3 (fun _ => GenOutcome.fail)
        (fun _ => LLMOutcome.ok false ("states the final answer") (9/10))
        (fun _ => 0) 0 ("help me solve 2x + 3 = 5") none).valCalls = 3 ∧
    (generate_validated_response 3 (fun _ => GenOutcome.fail)
        (fun _ => LLMOutcome.ok false ("states the final answer") (9/10))
        (fun _ => 0) 0 ("help me solve 2x + 3 = 5") none).result.validation_passed
      = false := by
  refine ⟨rfl, ?_, ?_, ?_⟩ <;> decide

/-- Helper: when the judge call raises, `validate_response` falls back to
the rule-stage verdict (with the judge marked as having been called). -/
theorem validate_response_fail_llm (s q : String) (b : Bool) (msg : String) (c : ℚ)
    (hr : rule_based_validation q = (b, msg, c)) (hc : ¬(b = false ∧ c > 8/10)) :
    validate_response LLMOutcome.fail s q = ⟨b, msg, c, true⟩ := by
  unfold validate_response
  rw [hr]
  rw [if_neg hc]
  rfl

unseal reMatch Rat.add Rat.sub Rat.mul Rat.inv in
/-- C2 (amended): a text-generation failure during attempt 1 is caught
inside the generation step, which substitutes a fallback question from
the fixed pool as that attempt's candidate; the candidate is still
validated like any generated response.  In a full outage (the judge
capability failing too) the fallback passes rule-based validation and is
returned from that same attempt with `validation_passed = true`, after
exactly one generation call and one validation call — the student sees a
canned Socratic prompt, never an error. -/
theorem generation_failure_yields_validated_fallback
    (gen : ℕ → GenOutcome) (pickGen : ℕ → ℕ) (pickFall : ℕ) (student : String)
    (hgen : gen 1 = GenOutcome.fail) :
    (generate_validated_response 3 gen (fun _ => LLMOutcome.fail) pickGen pickFall
        student none).result.response = FALLBACK_QUESTIONS.getD (pickGen 1 % 5) "" ∧
    (generate_validated_response 3 gen (fun _ => LLMOutcome.fail) pickGen pickFall
        student none).result.validation_passed = true ∧
    (generate_validated_response 3 gen (fun _ => LLMOutcome.fail) pickGen pickFall
        student none).result.attempts = 1 ∧
    (generate_validated_response 3 gen (fun _ => LLMOutcome.fail) pickGen pickFall
        student none).genCalls = 1 ∧
    (generate_validated_response 3 gen (fun _ => LLMOutcome.fail) pickGen pickFall
        student none).valCalls = 1 := by
  have h5 : pickGen 1 % 5 < 5 := Nat.mod_lt _ (by norm_num)
  have hresp : generate_socratic_response gen pickGen 1
      = FALLBACK_QUESTIONS.getD (pickGen 1 % 5) "" := by
    unfold generate_socratic_response
    rw [hgen]
    rfl
  have hval : validate_response LLMOutcome.fail student
      (FALLBACK_QUESTIONS.getD (pickGen 1 % 5) "")
      = ⟨true, "No obvious direct answer patterns detected", 7/10, true⟩ := by
    interval_cases h : pickGen 1 % 5 <;>
      exact validate_response_fail_llm _ _ _ _ _ (by decide) (by simp)
  unfold generate_validated_response validationLoop
  rw [hresp]
  simp only [hval]
  simp

/-- Witness for C2 (amended), at a concrete failing generator and judge. -/
theorem generation_failure_yields_validated_fallback_witness :
    (generate_validated_response 3 (fun _ => GenOutcome.fail)
        (fun _ => LLMOutcome.fail) (fun _ => 0) 0 ("help") none).result.response
      = FALLBACK_QUESTIONS.getD 0 "" ∧
    (generate_validated_response 3 (fun _ => GenOutcome.fail)
        (fun _ => LLMOutcome.fail) (fun _ => 0) 0 ("help") none).genCalls = 1 := by
  have h := generation_failure_yields_validated_fallback
    (fun _ => GenOutcome.fail) (fun _ => 0) 0 ("help") rfl
  exact ⟨h.1, h.2.2.2.1⟩

/-! ## The SymPy model

The services call SymPy (an external dependency, not part of this
repository's sources).  We model the fragment they exercise: expressions
that are polynomials over `ℚ` in at most one symbol.  A `SymExpr` is a
canonical such polynomial: coefficients ascending, no trailing zeros,
and `var = none` exactly when the polynomial is constant.  `sympy.Float`
values are modelled as exact rationals (all literals concerned are
decimal).  Modelling gaps (multivariate expressions, non-polynomial
operations, irrational or complex roots) are flagged where they occur;
no claim in scope exercises them. -/

/-- A canonical SymPy expression: polynomial over `ℚ` in at most one
symbol. -/
structure SymExpr where
  var : Option Char
  coeffs : List ℚ
deriving DecidableEq

/-- Remove trailing zero coefficients. -/
def trimPoly (l : List ℚ) : List ℚ :=
  (l.reverse.dropWhile (fun q => q == 0)).reverse

/-- Smart constructor: canonicalise and drop the symbol for constants. -/
def mkSym (v : Option Char) (c : List ℚ) : SymExpr :=
  let t := trimPoly c
  ⟨if t.length ≤ 1 then none else v, t⟩

/-- Pointwise addition of coefficient lists. -/
def addPoly : List ℚ → List ℚ → List ℚ
  | [], l => l
  | l, [] => l
  | a :: as, b :: bs => (a + b) :: addPoly as bs

/-- Polynomial multiplication (convolution). -/
def mulPoly : List ℚ → List ℚ → List ℚ
  | [], _ => []
  | a :: as, b => addPoly (b.map (fun q => a * q)) (0 :: mulPoly as b)

/-- Unify the symbols of two expressions; `none` = the multivariate case,
outside the modelled fragment. -/
def unifyVar : Option Char → Option Char → Option (Option Char)
  | none, v => some v
  | v, none => some v
  | some a, some b => if a = b then some (some a) else none

/-- SymPy `+` on the modelled fragment. -/
def Sadd (e1 e2 : SymExpr) : Option SymExpr :=
  (unifyVar e1.var e2.var).map (fun v => mkSym v (addPoly e1.coeffs e2.coeffs))

/-- SymPy unary `-`. -/
def Sneg (e : SymExpr) : SymExpr :=
  ⟨e.var, e.coeffs.map (fun q => -q)⟩

/-- SymPy `-` on the modelled fragment. -/
def Ssub (e1 e2 : SymExpr) : Option SymExpr :=
  Sadd e1 (Sneg e2)

/-- SymPy `*` on the modelled fragment. -/
def Smul (e1 e2 : SymExpr) : Option SymExpr :=
  (unifyVar e1.var e2.var).map (fun v => mkSym v (mulPoly e1.coeffs e2.coeffs))

/-- Whether the expression is a constant, and its value. -/
def constVal (e : SymExpr) : Option ℚ :=
  if e.var.isSome then none else some (e.coeffs.headD 0)

/-- SymPy `/`: division by a nonzero constant.  (SymPy itself also forms
rational functions, e.g. `1/x`; those are outside the modelled fragment
and no claim exercises them.) -/
def Sdiv (e1 e2 : SymExpr) : Option SymExpr :=
  match constVal e2 with
  | some c => if c = 0 then none else some (mkSym e1.var (e1.coeffs.map (fun q => q / c)))
  | none => none

/-- Iterated multiplication for `**`. -/
def SpowNat (e : SymExpr) : ℕ → Option SymExpr
  | 0 => some ⟨none, [1]⟩
  | n + 1 => (SpowNat e n).bind (fun p => Smul e p)

/-- SymPy `**`: the exponent must be a constant natural number in the
modelled fragment. -/
def Spow (e1 e2 : SymExpr) : Option SymExpr :=
  match constVal e2 with
  | some c => if c.den = 1 ∧ 0 ≤ c.num then SpowNat e1 c.num.toNat else none
  | none => none

/-! ### The expression parser (model of `sympify` on the fragment)

Grammar: sums of products of signed powers of atoms, where an atom is a
decimal number, a letter (a SymPy symbol) or a parenthesised expression;
`**` is exponentiation.  Implicit multiplication (`2x`) is a syntax
error, exactly as in `sympify`.  The recursion is fuelled; the fuel
supplied by the entry point exceeds any possible nesting depth, so it is
never exhausted on inputs the grammar accepts. -/

/-- Parse a nonempty digit run to its value and count. -/
def parseDigits : List Char → Option (ℕ × ℕ × List Char)
  | s =>
    let ds := s.takeWhile Char.isDigit
    if ds.isEmpty then none
    else some (ds.foldl (fun acc c => 10 * acc + (c.toNat - 48)) 0, ds.length,
               s.dropWhile Char.isDigit)

/-- Parse an unsigned decimal literal `\d+(\.\d+)?`. -/
def parseDec (s : List Char) : Option (ℚ × List Char) :=
  match parseDigits s with
  | none => none
  | some (ip, _, rest) =>
    match rest with
    | '.' :: rest2 =>
      match parseDigits rest2 with
      | some (fp, k, rest3) => some ((ip : ℚ) + (fp : ℚ) / (10 : ℚ) ^ k, rest3)
      | none => none
    | _ => some ((ip : ℚ), rest)

def skipSpaces (s : List Char) : List Char :=
  s.dropWhile pySpace

mutual

/-- Sum level: `term (('+'|'-') term)*`. -/
def parseSum : ℕ → List Char → Option (SymExpr × List Char)
  | 0, _ => none
  | f + 1, s =>
    match parseProd f s with
    | none => none
    | some (e, r) => parseSumRest f e r

def parseSumRest : ℕ → SymExpr → List Char → Option (SymExpr × List Char)
  | 0, _, _ => none
  | f + 1, acc, s =>
    match skipSpaces s with
    | '+' :: r =>
      match parseProd f r with
      | some (e, r2) =>
        match Sadd acc e with
        | some acc2 => parseSumRest f acc2 r2
        | none => none
      | none => none
    | '-' :: r =>
      match parseProd f r with
      | some (e, r2) =>
        match Ssub acc e with
        | some acc2 => parseSumRest f acc2 r2
        | none => none
      | none => none
    | _ => some (acc, s)

/-- Product level: `factor (('*'|'/') factor)*` (a lone `*`; `**` belongs
to the power level). -/
def parseProd : ℕ → List Char → Option (SymExpr × List Char)
  | 0, _ => none
  | f + 1, s =>
    match parseFactor f s with
    | none => none
    | some (e, r) => parseProdRest f e r

def parseProdRest : ℕ → SymExpr → List Char → Option (SymExpr × List Char)
  | 0, _, _ => none
  | f + 1, acc, s =>
    match skipSpaces s with
    | '*' :: '*' :: _ => none
    | '*' :: r =>
      match parseFactor f r with
      | some (e, r2) =>
        match Smul acc e with
        | some acc2 => parseProdRest f acc2 r2
        | none => none
      | none => none
    | '/' :: r =>
      match parseFactor f r with
      | some (e, r2) =>
        match Sdiv acc e with
        | some acc2 => parseProdRest f acc2 r2
        | none => none
      | none => none
    | _ => some (acc, s)

/-- Factor level: unary sign(s) then a power. -/
def parseFactor : ℕ → List Char → Option (SymExpr × List Char)
  | 0, _ => none
  | f + 1, s =>
    match skipSpaces s with
    | '-' :: r => (parseFactor f r).map (fun p => (Sneg p.1, p.2))
    | '+' :: r => parseFactor f r
    | r => parsePower f r

/-- Power level: `atom ('**' factor)?`, right-associative. -/
def parsePower : ℕ → List Char → Option (SymExpr × List Char)
  | 0, _ => none
  | f + 1, s =>
    match parseAtom f s with
    | none => none
    | some (a, r) =>
      match skipSpaces r with
      | '*' :: '*' :: r2 =>
        match parseFactor f r2 with
        | some (b, r3) =>
          match Spow a b with
          | some e => some (e, r3)
          | none => none
        | none => none
      | _ => some (a, r)

/-- Atom level: number, symbol, or parenthesised expression. -/
def parseAtom : ℕ → List Char → Option (SymExpr × List Char)
  | 0, _ => none
  | f + 1, s =>
    match skipSpaces s with
    | '(' :: r =>
      match parseSum f r with
      | some (e, r2) =>
        match skipSpaces r2 with
        | ')' :: r3 => some (e, r3)
        | _ => none
      | none => none
    | c :: r =>
      if c.isDigit then
        (parseDec (c :: r)).map (fun p => (mkSym none [p.1], p.2))
      else if isAnyAlpha c then
        some (⟨some c, [0, 1]⟩, r)
      else none
    | [] => none

end

/-- Model of `sympy.sympify` on the fragment: parse the whole string
(ignoring surrounding whitespace); `none` models `SympifyError`. -/
def sympifyModel (s : String) : Option SymExpr :=
  let cs := s.toList
  match parseSum (4 * cs.length + 8) cs with
  | some (e, r) => if (skipSpaces r).isEmpty then some e else none
  | none => none

/-! ### `sympy.solve` on the modelled fragment -/

/-- An element of the list `sympy.solve` returns.  For expression inputs
the elements are expressions (here: rationals); `boolTrue` stands for the
literal Python `True`, which the guard code `solutions == [True]` in
`SymPyService.solve_equation` tests for, and which `solve` never
produces for an expression input. -/
inductive SymSol where
  | num (q : ℚ)
  | boolTrue
deriving DecidableEq

/-- Exact natural square root, if any. -/
def natSqrtExact (n : ℕ) : Option ℕ :=
  (List.range (n + 1)).find? (fun k => k * k == n)

/-- Exact rational square root, if any. -/
def ratSqrtExact (q : ℚ) : Option ℚ :=
  if q < 0 then none
  else
    match natSqrtExact q.num.toNat, natSqrtExact q.den with
    | some a, some b => some ((a : ℚ) / (b : ℚ))
    | _, _ => none

/-- Model of `sympy.solve(expr, Symbol(v))` for a polynomial `expr`.

* If `v` does not occur in `expr` — including the zero expression —
  `solve` returns `[]`.  In particular `solve` CANNOT distinguish an
  identity (`x - x`, the zero expression) from an unsolvable constant
  equation: both give `[]`.  (This well-known conflation is the
  documented motivation for SymPy's separate `solveset` interface.)
* Linear: the single root.  Quadratic: the real roots in ascending order
  (as `solve` returns them), provided they are rational; irrational or
  complex roots and degree `≥ 3` are outside the modelled fragment
  (`none`), and no claim exercises them. -/
def sympySolve (e : SymExpr) (v : Char) : Option (List SymSol) :=
  if e.var = some v then
    match e.coeffs with
    | [b, a] => some [SymSol.num (-b / a)]
    | [c, b, a] =>
      let disc := b * b - 4 * a * c
      if disc = 0 then some [SymSol.num (-b / (2 * a))]
      else
        match ratSqrtExact disc with
        | some d =>
          let r1 := (-b - d) / (2 * a)
          let r2 := (-b + d) / (2 * a)
          some (if r1 ≤ r2 then [SymSol.num r1, SymSol.num r2]
                else [SymSol.num r2, SymSol.num r1])
        | none => none
    | _ => none
  else some []

/-- `str()` of a rational SymPy value (`Integer` or `Rational`). -/
def ratStr (q : ℚ) : String :=
  if q.den = 1 then toString q.num else toString q.num ++ "/" ++ toString q.den

/-- `str()` of a `solve` result element. -/
def symSolStr : SymSol → String
  | .num q => ratStr q
  | .boolTrue => "True"

/-! ## SymPyService (`app/services/sympy_service.py`) -/

namespace SymPyService

/-- `SymPyService.parse_expression`: convert `^` to `**`, then `sympify`.
(The Python error message carries the exception text; the model uses its
fixed prefix.) -/
def parse_expression (expr_str : String) : Except String SymExpr :=
  let converted := String.mk
    (expr_str.toList.foldr
      (fun c acc => if c = '^' then '*' :: '*' :: acc else c :: acc) [])
  match sympifyModel converted with
  | some e => .ok e
  | none => .error "Could not parse expression. Check your syntax"

/-- The `result` dictionary of `SymPyService.solve_equation` (only the
keys the source ever sets). -/
structure SolveResult where
  solvable : Bool
  solutions : List String
  message : Option String
  count : Option ℕ
deriving DecidableEq

/-- `SymPyService.solve_equation`: split on the first `=` (Python
`split('=', 1)`), solve `left - right` (or the whole input equated to
zero); `[]` from `solve` reports "No solution found"; the literal
`[True]` would report the identity message; otherwise the stringified
roots.  `Except.error` models the uniform `success: false` error
response. -/
def solve_equation (equation_str : String) (varName : Char := 'x') :
    Except String SolveResult := do
  let expr ←
    match splitFirst '=' equation_str.toList with
    | some (left, right) => do
      let l ← parse_expression (String.mk (stripChars left))
      let r ← parse_expression (String.mk (stripChars right))
      match Ssub l r with
      | some d => pure d
      | none => throw "Error solving equation: outside the modelled fragment"
    | none => parse_expression equation_str
  match sympySolve expr varName with
  | none => throw "Error solving equation: outside the modelled fragment"
  | some solutions =>
    if solutions.isEmpty then
      pure ⟨false, [], some "No solution found", none⟩
    else if solutions = [SymSol.boolTrue] then
      pure ⟨false, [], some "Infinite solutions (identity)", none⟩
    else
      pure ⟨true, solutions.map symSolStr, none, some solutions.length⟩

end SymPyService

deriving instance DecidableEq for Except

unseal Rat.add Rat.sub Rat.mul Rat.inv in
/-- C3 (code bug): on the identity input `"x = x"` the expression
`left - right` is the zero expression, for which `sympy.solve` returns
`[]` — not the literal `[True]` that the guard in
`SymPyService.solve_equation` tests for.  The `empty-solutions` branch
therefore fires first and the function reports
`message = "No solution found"`; the `"Infinite solutions (identity)"`
branch, clearly intended for exactly this case (the source comments it
`# Handle special case: infinite solutions`), is unreachable for
expression inputs.  This theorem evaluates the model at the failing
input. -/
theorem solve_equation_identity_reports_no_solution :
    SymPyService.solve_equation ("x = x") 'x'
      = .ok ⟨false, [], some ("No solution found"), none⟩ ∧
    SymPyService.solve_equation ("x = x") 'x'
      ≠ .ok ⟨false, [], some ("Infinite solutions (identity)"), none⟩ := by
  constructor
  · decide
  · decide

/-! ## AnswerChecker (`app/services/answer_checker.py`) -/

namespace AnswerChecker

/-- `AnswerChecker.TOLERANCE`. -/
def TOLERANCE : ℚ := 1/1000

/-- `+`, `-`, `*`, `/`. -/
def isOpChar (c : Char) : Bool :=
  c = '+' || c = '-' || c = '*' || c = '/'

/-- The `equation_patterns` of `extract_equation_from_history`, with
their Python source texts. -/
def equation_patterns : List (String × Regex) := [
  ("([a-z]\\s*[+\\-*/]\\s*\\d+\\s*=\\s*\\d+)",
    seqList [Regex.ch isLowerAlpha, Regex.many pySpace, Regex.ch isOpChar,
             Regex.many pySpace, plus1 isDigitCh, Regex.many pySpace,
             Regex.ch (fun c => c = '='), Regex.many pySpace, plus1 isDigitCh]),
  ("(\\d+\\s*[+\\-*/]\\s*[a-z]\\s*=\\s*\\d+)",
    seqList [plus1 isDigitCh, Regex.many pySpace, Regex.ch isOpChar,
             Regex.many pySpace, Regex.ch isLowerAlpha, Regex.many pySpace,
             Regex.ch (fun c => c = '='), Regex.many pySpace, plus1 isDigitCh]),
  ("(\\d+\\s*\\*?\\s*[a-z]\\s*=\\s*\\d+)",
    seqList [plus1 isDigitCh, Regex.many pySpace, Regex.opt (fun c => c = '*'),
             Regex.many pySpace, Regex.ch isLowerAlpha, Regex.many pySpace,
             Regex.ch (fun c => c = '='), Regex.many pySpace, plus1 isDigitCh]),
  ("([a-z]\\s*=\\s*\\d+)",
    seqList [Regex.ch isLowerAlpha, Regex.many pySpace,
             Regex.ch (fun c => c = '='), Regex.many pySpace, plus1 isDigitCh])]

/-- The trivial-answer filter `^[a-z]\s*=\s*-?\d+(\.\d+)?$` (checked with
`re.match`, so anchored at both ends). -/
def trivialAnswerRe : Regex :=
  seqList [Regex.ch isLowerAlpha, Regex.many pySpace,
           Regex.ch (fun c => c = '='), Regex.many pySpace,
           Regex.opt (fun c => c = '-'), plus1 isDigitCh,
           Regex.alt (Regex.seq (Regex.ch (fun c => c = '.')) (plus1 isDigitCh))
             Regex.eps,
           Regex.eos]

/-- Whether a string matches the trivial `letter = signed-number` shape. -/
def isTrivialAnswer (s : String) : Bool :=
  (reMatchLen trivialAnswerRe s.toList).isSome

/-- `AnswerChecker.extract_equation_from_history`: scan the history lines
most-recent-first; per line, per pattern, take the leftmost match, but
skip it (and fall through to the next pattern) when it has the trivial
`letter = signed-number` shape. -/
def extract_equation_from_history (conversation_history : String) : Option String :=
  if conversation_history = "" then none
  else
    let lines := splitOnChar '\n' conversation_history.toList
    lines.reverse.findSome? (fun line =>
      let line_lower := line.map Char.toLower
      equation_patterns.findSome? (fun pr =>
        match reSearch pr.2 line_lower with
        | some (st, en) =>
          let equation := String.mk (stripChars ((line_lower.drop st).take (en - st)))
          if isTrivialAnswer equation then none else some equation
        | none => none))

/-- Parse an unsigned decimal with nothing left over. -/
def parseDecAll (s : List Char) : Option ℚ :=
  match parseDec s with
  | some (q, []) => some q
  | _ => none

/-- Parse `-?\d+(\.\d+)?` with nothing left over (Python `float(...)` of
the matched group). -/
def parseSignedDecAll : List Char → Option ℚ
  | '-' :: rest => (parseDecAll rest).map (fun q => -q)
  | s => parseDecAll s

/-- `AnswerChecker.parse_student_answer`: accepts exactly
`letter = signed-number` (pattern 1) or a bare signed number, with the
variable defaulting to `x` (pattern 2); anything else is `None`. -/
def parse_student_answer (student_message : String) : Option (Char × ℚ) :=
  let message := stripChars ((lowerStr student_message).toList)
  (match message with
   | c :: rest =>
     if isLowerAlpha c then
       match rest.dropWhile pySpace with
       | '=' :: r2 => (parseSignedDecAll (r2.dropWhile pySpace)).map (fun q => (c, q))
       | _ => none
     else none
   | [] => none)
  <|> (parseSignedDecAll message).map (fun q => ('x', q))

/-- Insert `*` between a digit and a following lowercase letter
(`re.sub(r'(\d)([a-z])', r'\1*\2', ...)`). -/
def insertStars : List Char → List Char
  | [] => []
  | [c] => [c]
  | a :: b :: rest =>
    if a.isDigit && isLowerAlpha b then a :: '*' :: insertStars (b :: rest)
    else a :: insertStars (b :: rest)

/-- The solutions list `sympy.solve(Eq(left, right), var)` produces inside
`AnswerChecker.solve_equation`, after the source's cleanup (space
removal, implicit multiplication).  `none` models every failure path the
`except` clause catches (unparsable sides, more or fewer than one `=`,
inputs outside the modelled fragment).  `Eq(l, r)` is solved as
`l - r = 0`; for `l = r` the constructed `Eq` is the literal `True` and
every possible `solve` outcome on it leads to the same `None` result of
`solve_equation`, which the zero-expression model also yields. -/
def equationSolutions (equation_str : String) (varName : Char) :
    Option (List SymSol) :=
  let cleaned := insertStars (equation_str.toList.filter (fun c => c ≠ ' '))
  match splitOnChar '=' cleaned with
  | [left, right] =>
    match sympifyModel (String.mk left), sympifyModel (String.mk right) with
    | some l, some r =>
      match Ssub l r with
      | some d => sympySolve d varName
      | none => none
    | _, _ => none
  | _ => none

/-- `AnswerChecker.solve_equation`: the first solution as a float, or
`None` (no solutions, or `float()` failing on a non-numeric solution). -/
def solve_equation (equation_str : String) (varName : Char) : Option ℚ :=
  match equationSolutions equation_str varName with
  | none => none
  | some [] => none
  | some (s :: _) =>
    match s with
    | SymSol.num q => some q
    | SymSol.boolTrue => none

/-- The numeric comparison `abs(student_value - expected_answer) <
TOLERANCE` used by `check_answer`. -/
def answerMatches (student_value expected_answer : ℚ) : Bool :=
  |student_value - expected_answer| < TOLERANCE

/-- `AnswerChecker.check_answer`: returns
`(is_correct, explanation, expected_answer)`. -/
def check_answer (student_message conversation_history : String) :
    Bool × String × Option ℚ :=
  match parse_student_answer student_message with
  | none => (false, "Could not parse student answer", none)
  | some (v, value) =>
    match extract_equation_from_history conversation_history with
    | none => (true, "No equation found to validate against", none)
    | some equation =>
      match solve_equation equation v with
      | none => (true, "Could not solve equation", none)
      | some expected =>
        let is_correct := answerMatches value expected
        (is_correct,
         if is_correct then
           "Correct! " ++ String.mk [v] ++ " = " ++ ratStr expected
         else
           "Incorrect. Expected " ++ String.mk [v] ++ " = " ++ ratStr expected
             ++ ", got " ++ ratStr value,
         some expected)

/-- C4: `check_answer` fails open.  For every student message that
`parse_student_answer` accepts, if no governing equation can be
extracted from the history, or the extracted equation cannot be solved,
the result is `is_correct = true` with an explanatory message and
`expected_answer = None`. -/
theorem check_answer_fails_open
    (msg hist : String) (pa : Char × ℚ)
    (hparse : parse_student_answer msg = some pa)
    (hsolve : ∀ eq ∈ extract_equation_from_history hist,
        solve_equation eq pa.1 = none) :
    (check_answer msg hist).1 = true ∧
    (check_answer msg hist).2.2 = none ∧
    ((check_answer msg hist).2.1 = "No equation found to validate against" ∨
     (check_answer msg hist).2.1 = "Could not solve equation") := by
  obtain ⟨v, value⟩ := pa
  cases hext : extract_equation_from_history hist with
  | none => simp [check_answer, hparse, hext]
  | some eq =>
    have hs := hsolve eq (by rw [hext]; exact rfl)
    simp only at hs
    simp [check_answer, hparse, hext, hs]

/-- Witness for C4: a parsable answer with an empty history (no equation
extractable) is reported correct with no expected answer. -/
theorem check_answer_fails_open_witness :
    parse_student_answer ("x = 2") = some ('x', 2) ∧
    (check_answer ("x = 2") ("")).1 = true ∧
    (check_answer ("x = 2") ("")).2.2 = none := by
  have h := check_answer_fails_open ("x = 2") ("") ('x', 2) (by decide) (by decide)
  exact ⟨by decide, h.1, h.2.1⟩

unseal reMatch in
/-- C7: `extract_equation_from_history` never returns a match of the
trivial `letter = signed-number` shape (those are skipped as
previously-stated answers); on the history
`"Tutor: ...\nx + 3 = 5\nStudent: x = 2"` — scanned most-recent-first —
it skips the trivial `"x = 2"` and returns `"x + 3 = 5"`; and it returns
`None` on an empty history. -/
theorem extract_equation_skips_trivial_answers :
    (∀ (hist eq : String), extract_equation_from_history hist = some eq →
        isTrivialAnswer eq = false) ∧
    extract_equation_from_history ("Tutor: ...\nx + 3 = 5\nStudent: x = 2")
      = some ("x + 3 = 5") ∧
    extract_equation_from_history ("") = none := by
  refine ⟨?_, by decide, by decide⟩
  intro hist eq h
  unfold extract_equation_from_history at h
  by_cases hne : hist = ""
  · simp [hne] at h
  · rw [if_neg hne] at h
    obtain ⟨line, _, hline⟩ := List.exists_of_findSome?_eq_some h
    obtain ⟨pr, _, hpr⟩ := List.exists_of_findSome?_eq_some hline
    revert hpr
    cases reSearch pr.2 (line.map Char.toLower) with
    | none => simp
    | some span =>
      simp only []
      intro hpr
      by_cases htriv : isTrivialAnswer (String.mk (stripChars
          (((line.map Char.toLower).drop span.1).take (span.2 - span.1)))) = true
      · simp [htriv] at hpr
      · simp only [Bool.not_eq_true] at htriv
        simp [htriv] at hpr
        rw [← hpr]
        exact htriv

unseal reMatch in
/-- Witness for C7's universally quantified part, at the concrete
three-line history. -/
theorem extract_equation_skips_trivial_answers_witness :
    isTrivialAnswer ("x + 3 = 5") = false :=
  extract_equation_skips_trivial_answers.1
    ("Tutor: ...\nx + 3 = 5\nStudent: x = 2") ("x + 3 = 5") (by decide)

/-- C9: whenever the solutions list for an equation has at least two
(numeric) roots, `AnswerChecker.solve_equation` returns only the first
one and discards the rest; consequently the comparison `check_answer`
performs against that value reports a student answer equal to the second
root (when it differs from the first by at least the tolerance) as
incorrect. -/
theorem solve_equation_first_root_only
    (e : String) (v : Char) (s₁ s₂ : ℚ) (rest : List SymSol)
    (h : equationSolutions e v = some (SymSol.num s₁ :: SymSol.num s₂ :: rest)) :
    solve_equation e v = some s₁ ∧
    (TOLERANCE ≤ |s₂ - s₁| → answerMatches s₂ s₁ = false) := by
  constructor
  · unfold solve_equation
    rw [h]
  · intro hge
    simp only [answerMatches, decide_eq_false_iff_not]
    exact not_lt.2 hge

unseal Rat.add Rat.sub Rat.mul Rat.inv in
/-- Witness for C9: `x*x = 4` has the two roots `-2, 2`; the solver
returns `-2` only, and the student answer `2` — the other root — fails
the comparison. -/
theorem solve_equation_first_root_only_witness :
    equationSolutions ("x*x = 4") 'x' = some [SymSol.num (-2), SymSol.num 2] ∧
    solve_equation ("x*x = 4") 'x' = some (-2) ∧
    answerMatches 2 (-2) = false := by
  have hsol : equationSolutions ("x*x = 4") 'x'
      = some [SymSol.num (-2), SymSol.num 2] := by decide
  have h := solve_equation_first_root_only ("x*x = 4") 'x' (-2) 2 [] hsol
  exact ⟨hsol, h.1, h.2 (by norm_num [TOLERANCE])⟩

end AnswerChecker

/-! ## AnswerValidator (`app/services/answer_validator.py`) -/

namespace AnswerValidator

/-- `AnswerValidator.TOLERANCE`. -/
def TOLERANCE : ℚ := 1/1000

/-- Join strings with a separator. -/
def joinSep (sep : String) : List String → String
  | [] => ""
  | [s] => s
  | s :: rest => s ++ sep ++ joinSep sep rest

/-- One printed term `q * v ** n` of a polynomial. -/
def termStr (v : Char) (n : ℕ) (q : ℚ) : String :=
  if n = 0 then ratStr q
  else
    let pw := if n = 1 then String.mk [v] else String.mk [v] ++ "**" ++ toString n
    if q = 1 then pw
    else if q = -1 then "-" ++ pw
    else ratStr q ++ "*" ++ pw

/-- `str()` of a model expression (terms in descending degree, joined
with ` + `; a close approximation of SymPy's printer, which no claim
inspects). -/
def exprStr (e : SymExpr) : String :=
  match e.var with
  | none => ratStr (e.coeffs.headD 0)
  | some v =>
    joinSep (" + ")
      (((e.coeffs.enum.filter (fun p => p.2 ≠ 0)).reverse).map
        (fun p => termStr v p.1 p.2))

/-- `sympy.simplify` on the modelled fragment: the representation is
already canonical. -/
def simplifyE (e : SymExpr) : SymExpr := e

/-- `AnswerValidator._check_equivalence`: returns
`(is_equivalent, is_approximate)`.

* a difference whose symbols cannot be unified (the multivariate case,
  outside the modelled fragment) corresponds to the source's
  free-symbols branch with a failing `equals()` — `(False, False)`;
* exact zero difference — `(True, False)`;
* free variables remaining — `equals()` on canonical forms is equality,
  which the nonzero difference excludes — `(False, False)`;
* otherwise numeric evaluation against the `0.001` tolerance. -/
def check_equivalence (expr1 expr2 : SymExpr) : Bool × Bool :=
  match Ssub expr1 expr2 with
  | none => (false, false)
  | some difference =>
    if difference.coeffs = [] then (true, false)
    else if difference.var.isSome then (false, false)
    else
      let diff_value := difference.coeffs.headD 0
      if |diff_value| < TOLERANCE then (true, true) else (false, false)

/-- `AnswerValidator._generate_explanation`. -/
def generate_explanation (is_correct is_approximate : Bool)
    (student_answer expected_answer : String) : String :=
  if is_correct then
    if is_approximate then "Approximately correct! Your answer is very close."
    else "Correct! Well done."
  else
    "Not quite. Your answer simplifies to " ++ student_answer
      ++ ", but the expected answer is " ++ expected_answer ++ ". Try again!"

/-- The validation response dictionary (`is_approximate = none` models
the key being absent, as in the failure branches). -/
structure VResult where
  correct : Bool
  student_answer : String
  expected_answer : String
  explanation : String
  is_approximate : Option Bool
deriving DecidableEq

/-- `AnswerValidator.validate_answer`.  Total: every input pair yields a
result dictionary; the parse-failure branches echo the original input
strings. -/
def validate_answer (student_answer expected_answer : String) : VResult :=
  match SymPyService.parse_expression student_answer with
  | .error e =>
    ⟨false, student_answer, expected_answer,
     "Could not understand your answer: " ++ e, none⟩
  | .ok student_expr =>
    match SymPyService.parse_expression expected_answer with
    | .error _ =>
      ⟨false, student_answer, expected_answer,
       "There was an error checking your answer. Please try again.", none⟩
    | .ok expected_expr =>
      let student_simplified := simplifyE student_expr
      let expected_simplified := simplifyE expected_expr
      let eqv := check_equivalence student_simplified expected_simplified
      ⟨eqv.1, exprStr student_simplified, exprStr expected_simplified,
       generate_explanation eqv.1 eqv.2 (exprStr student_simplified)
         (exprStr expected_simplified),
       some eqv.2⟩

/-- C8: for every pair of answer strings that both parse, when the
simplified difference `student - expected` has no free variables and is
not exactly zero, `validate_answer` returns `correct = true` with
`is_approximate = true` exactly when the numeric value of the difference
is below the `0.001` tolerance in absolute value, and `correct = false`
(with `is_approximate = false`) otherwise. -/
theorem validate_answer_numeric_tolerance
    (s t : String) (ps pt d : SymExpr)
    (hs : SymPyService.parse_expression s = .ok ps)
    (ht : SymPyService.parse_expression t = .ok pt)
    (hd : Ssub ps pt = some d)
    (hconst : d.var = none)
    (hnz : d.coeffs ≠ []) :
    (validate_answer s t).correct = decide (|d.coeffs.headD 0| < 1/1000) ∧
    (validate_answer s t).is_approximate
      = some (decide (|d.coeffs.headD 0| < 1/1000)) := by
  have heq : check_equivalence (simplifyE ps) (simplifyE pt)
      = (decide (|d.coeffs.headD 0| < 1/1000),
         decide (|d.coeffs.headD 0| < 1/1000)) := by
    unfold check_equivalence simplifyE
    rw [hd]
    simp [hnz, hconst, TOLERANCE]
    split_ifs with h
    · simp [h]
    · simp [h]
  simp [validate_answer, hs, ht, heq]

unseal Rat.add Rat.sub Rat.mul Rat.inv in
/-- Witness for C8: `validate_answer("1/3", "0.3333333333")` — the
difference is `1/30000000000 < 0.001` — yields `correct = true`,
`is_approximate = true`. -/
theorem validate_answer_numeric_tolerance_witness :
    (validate_answer ("1/3") ("0.3333333333")).correct = true ∧
    (validate_answer ("1/3") ("0.3333333333")).is_approximate = some true := by
  have h := validate_answer_numeric_tolerance ("1/3") ("0.3333333333")
    ⟨none, [1/3]⟩ ⟨none, [3333333333/10000000000]⟩ ⟨none, [1/30000000000]⟩
    (by decide) (by decide) (by decide) rfl (by decide)
  constructor
  · rw [h.1]; decide
  · rw [h.2]; decide

/-- C10: `validate_answer` is total at its public boundary (it is a total
function of its two string inputs), and on either parse failure it
returns `correct = false` with a human-readable explanation and the
original answer strings echoed back.  (The source's blanket `except`
branch, not representable in a total model, returns the same shape with
the original strings; the two parse-failure branches proved here are the
reachable failure paths of the model.) -/
theorem validate_answer_parse_failure_fails_closed (s t : String) :
    (∀ es, SymPyService.parse_expression s = .error es →
       validate_answer s t =
         ⟨false, s, t, "Could not understand your answer: " ++ es, none⟩) ∧
    (∀ v et, SymPyService.parse_expression s = .ok v →
       SymPyService.parse_expression t = .error et →
       validate_answer s t =
         ⟨false, s, t,
          "There was an error checking your answer. Please try again.", none⟩) := by
  constructor
  · intro es h
    simp [validate_answer, h]
  · intro v et h1 h2
    simp [validate_answer, h1, h2]

/-- Witness for C10: an unparsable student answer yields the
fail-closed dictionary with the originals echoed. -/
theorem validate_answer_parse_failure_fails_closed_witness :
    validate_answer ("((") ("5") =
      ⟨false, "((", "5",
       "Could not understand your answer: Could not parse expression. Check your syntax",
       none⟩ :=
  (validate_answer_parse_failure_fails_closed ("((") ("5")).1
    ("Could not parse expression. Check your syntax") (by decide)

end AnswerValidator

/-! ## MathDetector (`app/services/math_detector.py`)

`detect` runs with `re.IGNORECASE`; the model matches on the lowercased
text (offsets coincide, ASCII lowering is length-preserving) and slices
matched text out of the original. -/

namespace MathDetector

/-- `ExpressionType`. -/
inductive ExpressionType where
  | equation
  | expression
  | numerical
  | answer_statement
  | inequality
  | unknown
deriving DecidableEq

/-- `ExpressionType(...).value`. -/
def ExpressionType.value : ExpressionType → String
  | .equation => "equation"
  | .expression => "expression"
  | .numerical => "numerical"
  | .answer_statement => "answer_statement"
  | .inequality => "inequality"
  | .unknown => "unknown"

/-- One entry of `MathDetector.PATTERNS`. -/
structure PatternDef where
  name : String
  regex : Regex
  type : ExpressionType
  confidence : ℚ
  exclude_answer_statement : Bool := false

def opChar5 (c : Char) : Bool :=
  c = '+' || c = '-' || c = '*' || c = '/' || c = '^'

def caretStar (c : Char) : Bool := c = '^' || c = '*'

def punct4 (c : Char) : Bool := c = ',' || c = '.' || c = '?' || c = '!'

/-- `[\da-zA-Z\+\-\*/\^\(\)\.]`. -/
def eqClsA (c : Char) : Bool :=
  c.isDigit || isAnyAlpha c || opChar5 c || c = '(' || c = ')' || c = '.'

/-- `[\d\+\-\*/\^\(\)\.\s]`. -/
def eqClsB (c : Char) : Bool :=
  c.isDigit || opChar5 c || c = '(' || c = ')' || c = '.' || pySpace c

/-- `[\da-zA-Z\+\-\*/\^\(\)\.\s]`. -/
def eqClsC (c : Char) : Bool :=
  eqClsA c || pySpace c

/-- `[<>≤≥]`. -/
def cmpChar (c : Char) : Bool :=
  c = '<' || c = '>' || c = '≤' || c = '≥'

/-- `[\d\(a-zA-Z]`. -/
def ineqFirst (c : Char) : Bool :=
  c.isDigit || c = '(' || isAnyAlpha c

/-- `[a-zA-Z\s\+\-\d]`. -/
def parenCls (c : Char) : Bool :=
  isAnyAlpha c || pySpace c || c = '+' || c = '-' || c.isDigit

/-- `(?:\.\d+)?` (greedy optional group). -/
def optFrac : Regex :=
  Regex.alt (Regex.seq (Regex.ch (fun c => c = '.')) (plus1 isDigitCh)) Regex.eps

/-- `MathDetector.PATTERNS`, in source order. -/
def PATTERNS : List PatternDef := [
  -- `\b([a-zA-Z])\s*=\s*([-]?\d+(?:\.\d+)?)\b`
  ⟨"answer_statement",
   seqList [Regex.wb, Regex.ch isAnyAlpha, Regex.many pySpace,
            Regex.ch (fun c => c = '='), Regex.many pySpace,
            Regex.opt (fun c => c = '-'), plus1 isDigitCh, optFrac, Regex.wb],
   ExpressionType.answer_statement, 95/100, false⟩,
  -- `(?:^|(?<=\s))(?:\d+[..]*?|[a-z](?:[..])*?)\s*=\s*[..]+?(?=\s*(?:$|[,\.\?!]|and|or|but))`
  ⟨"equation",
   seqList [Regex.startOrPrev pySpace,
            Regex.alt (Regex.seq (plus1 isDigitCh) (Regex.manyLazy eqClsA))
              (Regex.seq (Regex.ch isLowerAlpha) (Regex.manyLazy eqClsB)),
            Regex.many pySpace, Regex.ch (fun c => c = '='), Regex.many pySpace,
            plusLazy eqClsC,
            Regex.ahead (Regex.seq (Regex.many pySpace)
              (Regex.alt Regex.eos (Regex.alt (Regex.ch punct4)
                (Regex.alt (strLit ("and"))
                  (Regex.alt (strLit ("or")) (strLit ("but")))))))],
   ExpressionType.equation, 90/100, true⟩,
  -- `(?:^|(?<=\s))[\d\(a-zA-Z][..]*?\s*[<>≤≥]\s*[..]+?(?=\s|$|[,\.\?!])`
  ⟨"inequality",
   seqList [Regex.startOrPrev pySpace, Regex.ch ineqFirst,
            Regex.manyLazy eqClsC, Regex.many pySpace, Regex.ch cmpChar,
            Regex.many pySpace, plusLazy eqClsC,
            Regex.ahead (Regex.alt (Regex.ch pySpace)
              (Regex.alt Regex.eos (Regex.ch punct4)))],
   ExpressionType.inequality, 85/100, false⟩,
  -- `\b\d*[a-zA-Z][\^\*]?\d*\s*[\+\-]\s*\d*[a-zA-Z]?[\^\*]?\d*`
  ⟨"algebraic_expression",
   seqList [Regex.wb, Regex.many isDigitCh, Regex.ch isAnyAlpha,
            Regex.opt caretStar, Regex.many isDigitCh, Regex.many pySpace,
            Regex.ch (fun c => c = '+' || c = '-'), Regex.many pySpace,
            Regex.many isDigitCh, Regex.opt isAnyAlpha, Regex.opt caretStar,
            Regex.many isDigitCh],
   ExpressionType.expression, 80/100, false⟩,
  -- `\d*[a-zA-Z][\^\*]\d+|\d+[a-zA-Z]|\([a-zA-Z\s\+\-\d]+\)`
  ⟨"algebraic_term",
   Regex.alt
     (seqList [Regex.many isDigitCh, Regex.ch isAnyAlpha, Regex.ch caretStar,
               plus1 isDigitCh])
     (Regex.alt
       (Regex.seq (plus1 isDigitCh) (Regex.ch isAnyAlpha))
       (seqList [Regex.ch (fun c => c = '('), plus1 parenCls,
                 Regex.ch (fun c => c = ')')])),
   ExpressionType.expression, 75/100, false⟩,
  -- `\b\d+(?:\.\d+)?\s*[\+\-\*/\^]\s*\d+(?:\.\d+)?\b`
  ⟨"numerical",
   seqList [Regex.wb, plus1 isDigitCh, optFrac, Regex.many pySpace,
            Regex.ch opChar5, Regex.many pySpace, plus1 isDigitCh, optFrac,
            Regex.wb],
   ExpressionType.numerical, 70/100, false⟩,
  -- `\b(sqrt|sin|cos|tan|log|ln|abs)\s*\([^)]+\)`
  ⟨"function",
   seqList [Regex.wb,
            altList [strLit ("sqrt"), strLit ("sin"), strLit ("cos"),
                     strLit ("tan"), strLit ("log"), strLit ("ln"),
                     strLit ("abs")],
            Regex.many pySpace, Regex.ch (fun c => c = '('),
            plus1 (fun c => c ≠ ')'), Regex.ch (fun c => c = ')')],
   ExpressionType.expression, 85/100, false⟩,
  -- `\b\d+\s*/\s*\d+\b`
  ⟨"fraction",
   seqList [Regex.wb, plus1 isDigitCh, Regex.many pySpace,
            Regex.ch (fun c => c = '/'), Regex.many pySpace, plus1 isDigitCh,
            Regex.wb],
   ExpressionType.numerical, 65/100, false⟩]

/-- `MATH_KEYWORDS`. -/
def MATH_KEYWORDS : List String :=
  ["solve", "simplify", "factor", "expand", "equation", "expression",
   "calculate", "compute", "evaluate", "answer", "solution", "equal",
   "plus", "minus", "times", "divided", "multiply", "subtract", "add"]

/-- `NON_MATH_KEYWORDS`. -/
def NON_MATH_KEYWORDS : List String :=
  ["email", "address", "password", "username", "code", "id",
   "phone", "zip", "date", "time", "version"]

/-- `MathDetector._adjust_confidence`.  Note the keyword counts use
Python's `keyword in text` containment: each keyword contributes at most
once, however often it occurs. -/
def adjust_confidence (full_text matched_text : String)
    (base_confidence : ℚ) : ℚ :=
  let full_text_lower := (lowerStr full_text).toList
  let math_keyword_count :=
    MATH_KEYWORDS.countP (fun kw => hasSubstr kw.toList full_text_lower)
  let c1 :=
    if math_keyword_count > 0 then
      min 1 (base_confidence + math_keyword_count * (5/100))
    else base_confidence
  let non_math_keyword_count :=
    NON_MATH_KEYWORDS.countP (fun kw => hasSubstr kw.toList full_text_lower)
  let c2 :=
    if non_math_keyword_count > 0 then
      max 0 (c1 - non_math_keyword_count * (1/10))
    else c1
  if matched_text.length < 3 ∧ full_text.length > 50 then max 0 (c2 - 2/10)
  else c2

/-- Modelled from the spec: the spec's wording of the adjustment
("+0.05 per occurrence of a recognized math keyword anywhere in the full
text (capped ...); −0.10 per occurrence of a recognized non-math keyword
(floor 0.0)"), which counts every occurrence of every keyword rather
than each keyword once.  Defined only to compare against the source's
`_adjust_confidence`. -/
def adjust_confidence_spec (full_text matched_text : String)
    (base_confidence : ℚ) : ℚ :=
  let full_text_lower := (lowerStr full_text).toList
  let math_occurrences :=
    (MATH_KEYWORDS.map (fun kw => occurrenceCount kw.toList full_text_lower)).sum
  let c1 :=
    if math_occurrences > 0 then
      min 1 (base_confidence + math_occurrences * (5/100))
    else base_confidence
  let non_math_occurrences :=
    (NON_MATH_KEYWORDS.map (fun kw => occurrenceCount kw.toList full_text_lower)).sum
  let c2 :=
    if non_math_occurrences > 0 then
      max 0 (c1 - non_math_occurrences * (1/10))
    else c1
  if matched_text.length < 3 ∧ full_text.length > 50 then max 0 (c2 - 2/10)
  else c2

/-- One detected-expression dictionary.  (`stop` is the source's `end`
key, a reserved word in Lean.) -/
structure DExpr where
  text : String
  type : String
  pattern_name : String
  confidence : ℚ
  start : ℕ
  stop : ℕ
deriving DecidableEq

/-- Python's `any(pos in used_range for pos in expr_range)`: the two
half-open ranges share a position. -/
def rangesOverlap (a b : ℕ × ℕ) : Bool :=
  decide ((Finset.Ico a.1 a.2 ∩ Finset.Ico b.1 b.2).Nonempty)

/-- The greedy acceptance pass of `_deduplicate_expressions`. -/
def greedySelect : List DExpr → List (ℕ × ℕ) → List DExpr
  | [], _ => []
  | expr :: rest, used_ranges =>
    if used_ranges.any (fun r => rangesOverlap r (expr.start, expr.stop)) then
      greedySelect rest used_ranges
    else expr :: greedySelect rest ((expr.start, expr.stop) :: used_ranges)

/-- `MathDetector._deduplicate_expressions`: stable-sort by
`(-confidence, start)`, greedily accept non-overlapping ranges, then
stable-sort the accepted set by `start`. -/
def deduplicate_expressions (expressions : List DExpr) : List DExpr :=
  if expressions.length ≤ 1 then expressions
  else
    let sorted_exprs := expressions.mergeSort
      (fun a b => decide (a.confidence > b.confidence ∨
        (a.confidence = b.confidence ∧ a.start ≤ b.start)))
    let deduplicated := greedySelect sorted_exprs []
    deduplicated.mergeSort (fun a b => decide (a.start ≤ b.start))

/-- The `^\s*[a-zA-Z]\s*=\s*[-]?\d+(?:\.\d+)?\s*$` simple-answer filter
(checked with `re.match`, `$` anchoring the end). -/
def simpleAnswerRe : Regex :=
  seqList [Regex.many pySpace, Regex.ch isAnyAlpha, Regex.many pySpace,
           Regex.ch (fun c => c = '='), Regex.many pySpace,
           Regex.opt (fun c => c = '-'), plus1 isDigitCh, optFrac,
           Regex.many pySpace, Regex.eos]

def isSimpleAnswer (s : String) : Bool :=
  (reMatchLen simpleAnswerRe s.toList).isSome

/-- Candidates one pattern contributes in `detect`'s scanning loop. -/
def candidatesFor (min_confidence : ℚ) (text textLower : List Char)
    (pd : PatternDef) : List DExpr :=
  (reFinditer pd.regex textLower).filterMap (fun span =>
    let matched_text := String.mk (stripChars ((text.drop span.1).take (span.2 - span.1)))
    if matched_text.length < 2 then none
    else if pd.exclude_answer_statement && isSimpleAnswer matched_text then none
    else
      let confidence := adjust_confidence (String.mk text) matched_text pd.confidence
      if confidence ≥ min_confidence then
        some ⟨matched_text, pd.type.value, pd.name, confidence, span.1, span.2⟩
      else none)

/-- `DetectionResult`. -/
structure DetectionResult where
  has_math : Bool
  confidence : ℚ
  expressions : List DExpr
  overall_type : Option String
  detected_patterns : List String
  text_length : ℕ
deriving DecidableEq

/-- `MathDetector._empty_result`. -/
def empty_result : DetectionResult := ⟨false, 0, [], none, [], 0⟩

/-- `MathDetector._determine_overall_type` (Python's `max` keeps the
first element of maximal confidence). -/
def determine_overall_type (expressions : List DExpr) : Option String :=
  match expressions with
  | [] => none
  | e :: rest =>
    some (rest.foldl
      (fun acc x => if x.confidence > acc.confidence then x else acc) e).type

/-- `MathDetector.detect` (with `min_confidence` from the constructor;
`list(set(...))` — an unordered set in Python — is modelled as
first-occurrence deduplication). -/
def detect (min_confidence : ℚ) (text : String) : DetectionResult :=
  if text = "" then empty_result
  else
    let tl := text.toList
    let lower := tl.map Char.toLower
    let detected := (PATTERNS.map (candidatesFor min_confidence tl lower)).join
    let detected_patterns := detected.map (fun e => e.pattern_name)
    let max_confidence := (detected.map (fun e => e.confidence)).foldl max 0
    let detected_expressions := deduplicate_expressions detected
    let overall_type := determine_overall_type detected_expressions
    let has_math := decide (detected_expressions.length > 0)
                      && decide (max_confidence ≥ min_confidence)
    ⟨has_math, max_confidence, detected_expressions, overall_type,
     detected_patterns.eraseDups, text.length⟩

unseal Rat.add Rat.sub Rat.mul Rat.inv in
/-- Counterexample to C5 as stated: on the text `"solve solve"` the math
keyword `solve` OCCURS twice, so the spec's "+0.05 per occurrence" gives
`0.8 + 0.10 = 0.9`; the source counts each keyword once (`keyword in
text`), giving `0.8 + 0.05 = 0.85`. -/
theorem adjust_confidence_counts_keywords_not_occurrences :
    adjust_confidence ("solve solve") ("2x+3") (4/5) = 17/20 ∧
    adjust_confidence_spec ("solve solve") ("2x+3") (4/5) = 9/10 ∧
    ((17:ℚ)/20) ≠ ((9:ℚ)/10) := by
  refine ⟨by decide, by decide, by decide⟩

/-- C5 (amended): the detector adjusts the base confidence by `+0.05`
per DISTINCT recognized math keyword present anywhere in the text (each
keyword counted once however often it occurs), capped so the result of
the boost never exceeds `1.0`; by `−0.10` per distinct recognized
non-math keyword present, floored at `0.0`; and by an additional `−0.2`
(again floored at `0.0`) when the matched text is under 3 characters
while the full text exceeds 50 characters. -/
theorem adjust_confidence_distinct_keyword_formula
    (full_text matched_text : String) (base : ℚ)
    (h0 : 0 ≤ base) (h1 : base ≤ 1) :
    adjust_confidence full_text matched_text base =
      (if matched_text.length < 3 ∧ full_text.length > 50 then
        max 0 (max 0 (min 1 (base +
            (MATH_KEYWORDS.countP
              (fun kw => hasSubstr kw.toList (lowerStr full_text).toList)) * (5/100))
          - (NON_MATH_KEYWORDS.countP
              (fun kw => hasSubstr kw.toList (lowerStr full_text).toList)) * (1/10))
          - 2/10)
      else
        max 0 (min 1 (base +
            (MATH_KEYWORDS.countP
              (fun kw => hasSubstr kw.toList (lowerStr full_text).toList)) * (5/100))
          - (NON_MATH_KEYWORDS.countP
              (fun kw => hasSubstr kw.toList (lowerStr full_text).toList)) * (1/10))) := by
  simp only [adjust_confidence]
  set m := MATH_KEYWORDS.countP
    (fun kw => hasSubstr kw.toList (lowerStr full_text).toList) with hm
  set n := NON_MATH_KEYWORDS.countP
    (fun kw => hasSubstr kw.toList (lowerStr full_text).toList) with hn
  have hc1 : (if m > 0 then min 1 (base + m * (5/100)) else base)
      = min 1 (base + m * (5/100)) := by
    by_cases hm0 : m > 0
    · rw [if_pos hm0]
    · rw [if_neg hm0]
      have : m = 0 := by omega
      rw [this]
      push_cast
      rw [zero_mul, add_zero, min_eq_right h1]
  have hc1nn : 0 ≤ min 1 (base + m * (5/100)) := by
    apply le_min
    · norm_num
    · positivity
  have hc2 : (if n > 0 then max 0 (min 1 (base + m * (5/100)) - n * (1/10))
        else min 1 (base + m * (5/100)))
      = max 0 (min 1 (base + m * (5/100)) - n * (1/10)) := by
    by_cases hn0 : n > 0
    · rw [if_pos hn0]
    · rw [if_neg hn0]
      have : n = 0 := by omega
      rw [this]
      push_cast
      rw [zero_mul, sub_zero, max_eq_right hc1nn]
  rw [hc1, hc2]

unseal Rat.add Rat.sub Rat.mul Rat.inv in
/-- Witness for C5 (amended), at a concrete in-range base confidence. -/
theorem adjust_confidence_distinct_keyword_formula_witness :
    adjust_confidence ("solve solve") ("2x+3") (4/5)
      = max 0 (min 1 ((4:ℚ)/5 +
          (MATH_KEYWORDS.countP
            (fun kw => hasSubstr kw.toList (lowerStr ("solve solve")).toList)) * (5/100))
        - (NON_MATH_KEYWORDS.countP
            (fun kw => hasSubstr kw.toList (lowerStr ("solve solve")).toList)) * (1/10)) := by
  have h := adjust_confidence_distinct_keyword_formula
    ("solve solve") ("2x+3") (4/5) (by norm_num) (by norm_num)
  rw [h]
  rw [if_neg (by decide)]

/-- Range intersection is symmetric. -/
theorem rangesOverlap_comm (a b : ℕ × ℕ) : rangesOverlap a b = rangesOverlap b a := by
  simp [rangesOverlap, Finset.inter_comm]

/-- Every expression the greedy pass accepts is disjoint from every range
already in `used_ranges`. -/
theorem greedySelect_avoids :
    ∀ (l : List DExpr) (used : List (ℕ × ℕ)), ∀ e ∈ greedySelect l used,
      ∀ r ∈ used, rangesOverlap r (e.start, e.stop) = false := by
  intro l
  induction l with
  | nil => intro used e he; simp [greedySelect] at he
  | cons a t ih =>
    intro used e he r hr
    rw [greedySelect] at he
    by_cases hov : used.any (fun r => rangesOverlap r (a.start, a.stop)) = true
    · rw [if_pos hov] at he
      exact ih used e he r hr
    · rw [if_neg hov] at he
      rcases List.mem_cons.mp he with rfl | he'
      · have hfalse : used.any (fun r => rangesOverlap r (e.start, e.stop)) = false := by
          simpa using hov
        have := List.any_eq_false.mp hfalse r hr
        simpa using this
      · exact ih _ e he' r (List.mem_cons_of_mem _ hr)

/-- The greedy pass yields pairwise disjoint ranges. -/
theorem greedySelect_pairwise :
    ∀ (l : List DExpr) (used : List (ℕ × ℕ)),
      List.Pairwise
        (fun x y => rangesOverlap (x.start, x.stop) (y.start, y.stop) = false)
        (greedySelect l used) := by
  intro l
  induction l with
  | nil => intro used; simp [greedySelect]
  | cons a t ih =>
    intro used
    rw [greedySelect]
    by_cases hov : used.any (fun r => rangesOverlap r (a.start, a.stop)) = true
    · rw [if_pos hov]; exact ih used
    · rw [if_neg hov]
      refine List.Pairwise.cons ?_ (ih _)
      intro b hb
      exact greedySelect_avoids t ((a.start, a.stop) :: used) b hb
        (a.start, a.stop) (List.mem_cons_self _ _)

/-- `_deduplicate_expressions` always returns a list whose ranges are
pairwise disjoint and whose starts ascend. -/
theorem deduplicate_pairwise (l : List DExpr) :
    List.Pairwise
      (fun x y => rangesOverlap (x.start, x.stop) (y.start, y.stop) = false)
      (deduplicate_expressions l) ∧
    List.Pairwise (fun x y => x.start ≤ y.start) (deduplicate_expressions l) := by
  unfold deduplicate_expressions
  by_cases hlen : l.length ≤ 1
  · rw [if_pos hlen]
    cases l with
    | nil => simp
    | cons a t =>
      cases t with
      | nil => simp
      | cons b t2 => simp at hlen
  · rw [if_neg hlen]
    constructor
    · have hperm := List.mergeSort_perm
        (greedySelect (l.mergeSort (fun a b => decide (a.confidence > b.confidence ∨
          (a.confidence = b.confidence ∧ a.start ≤ b.start)))) [])
        (fun a b => decide (a.start ≤ b.start))
      exact (List.Perm.pairwise_iff
        (fun hxy => by rwa [rangesOverlap_comm]) hperm).mpr
        (greedySelect_pairwise _ _)
    · have h := @List.sorted_mergeSort DExpr
        (fun a b => decide (a.start ≤ b.start))
        (fun a b c h1 h2 => by
          simp only [decide_eq_true_eq] at h1 h2 ⊢
          omega)
        (fun a b => by
          simp only [Bool.or_eq_true, decide_eq_true_eq]
          omega)
        (greedySelect (l.mergeSort (fun a b => decide (a.confidence > b.confidence ∨
          (a.confidence = b.confidence ∧ a.start ≤ b.start)))) [])
      exact h.imp (fun hab => of_decide_eq_true hab)

/-- C6: for every input text (and every confidence threshold), the
matches retained in the result of `detect` have pairwise non-overlapping
`[start, end)` character ranges, and the surviving matches are output
sorted by start offset ascending (deduplication sorts candidates by
confidence descending with ties broken by earliest start, greedily
discards candidates intersecting an accepted range, and re-sorts by
start). -/
theorem detect_ranges_disjoint_and_sorted (min_confidence : ℚ) (text : String) :
    List.Pairwise
      (fun x y => rangesOverlap (x.start, x.stop) (y.start, y.stop) = false)
      ((detect min_confidence text).expressions) ∧
    List.Pairwise (fun x y => x.start ≤ y.start)
      ((detect min_confidence text).expressions) := by
  unfold detect
  by_cases h : text = ""
  · rw [if_pos h]
    simp [empty_result]
  · rw [if_neg h]
    exact deduplicate_pairwise _

end MathDetector

end SuperTutors
